import Mathlib

/-
Shallow embedding of the socflow collection and storage core
(src/src/database/sqlite.py, src/src/collectors/reddit.py,
src/src/collectors/base.py, src/src/app.py, src/src/models/base.py).
Conventions used throughout:
  - Python datetime values are abstract Nat timestamps; json.dumps of a
    structured value is modelled as the value itself (the encoding is
    injective, and no property depends on the concrete JSON text).
  - Python truthiness of optional strings and integers is modelled
    explicitly (None, the empty string, and 0 are falsy).
  - A raised exception is an Except.error; functions the source makes
    total by a try/except boundary are total Lean functions.
-/

namespace SocFlow

/-- Social media metrics (models/base.py, class Metrics). The pydantic
extra fields mechanism is not modelled; the declared counters are. -/
structure Metrics where
  likes : Nat := 0
  shares : Nat := 0
  comments : Nat := 0
  upvotes : Nat := 0
  downvotes : Nat := 0
  views : Option Nat := none
deriving DecidableEq

/-- Platform-agnostic post model (models/base.py, class BasePost), plus the
union of the platform-specific attribute-bag fields that
SQLiteManager._post_to_db_row reads via getattr(post, field, None).
An Option value of none models an absent attribute (getattr default),
so hasattr corresponds to Option.isSome. raw_data is kept as an opaque
blob string. -/
structure BasePost where
  platform : String
  object_id : String
  author_handle : String
  text : String
  created_at : Nat
  tags : List String := []
  metrics : Metrics := {}
  url : Option String := none
  parent_id : Option String := none
  is_comment : Bool := false
  raw_data : Option String := none
  subreddit : Option String := none
  title : Option String := none
  is_nsfw : Bool := false
  handle : Option String := none
  display_name : Option String := none
  avatar_url : Option String := none
  is_reply : Bool := false
  is_repost : Bool := false
  reply_to : Option String := none
  repost_of : Option String := none
  instanceName : Option String := none
  is_reblog : Bool := false
  is_sensitive : Bool := false
  reblog_of : Option String := none
deriving DecidableEq

/-- Row of the posts table (database/sqlite.py, class PostTable). The
autoincrement primary key id is the position of the row in the store
list and is not repeated as a field; instanceName is the column named
instance in the source (a reserved word here). Boolean columns stored
as 0 or 1 integers are kept as Nat. -/
structure PostTable where
  platform : String
  object_id : String
  author_handle : String
  text : String
  created_at : Nat
  url : Option String := none
  parent_id : Option String := none
  is_comment : Nat := 0
  raw_data : Option String := none
  metrics : Metrics := {}
  subreddit : Option String := none
  title : Option String := none
  is_nsfw : Nat := 0
  handle : Option String := none
  display_name : Option String := none
  avatar_url : Option String := none
  is_reply : Nat := 0
  is_repost : Nat := 0
  reply_to : Option String := none
  repost_of : Option String := none
  tags : Option (List String) := none
  instanceName : Option String := none
  is_reblog : Nat := 0
  is_sensitive : Nat := 0
  reblog_of : Option String := none
deriving DecidableEq

/-- Dedup key: the pair (platform, object_id). -/
abbrev Key := String × String

def BasePost.key (p : BasePost) : Key := (p.platform, p.object_id)

def PostTable.key (r : PostTable) : Key := (r.platform, r.object_id)

/-- Boolean equality of keys. -/
def beqKey (a b : Key) : Bool := a.1 == b.1 && a.2 == b.2

/-- Python truthiness of an optional string: None and the empty string
are falsy. -/
def pyTruthyStr : Option String → Bool
  | none => false
  | some s => !(s == "")

/-- Python truthiness of an optional integer: None and 0 are falsy. -/
def pyTruthyNat : Option Nat → Bool
  | none => false
  | some n => !(n == 0)

/-- Python a or b over optional strings (falsy left operand falls
through to the right operand). -/
def pyOrStr (a b : Option String) : Option String :=
  if pyTruthyStr a then a else b

/-- The raw_data column value: json.dumps(post.raw_data) if post.raw_data
else None. A falsy (empty) blob stores NULL. -/
def rawDataToCol (r : Option String) : Option String :=
  match r with
  | none => none
  | some s => if s == "" then none else some s

/-- SQLiteManager._post_to_db_row: convert a BasePost into a fresh
PostTable row. tags are stored only for the bluesky platform. -/
def _post_to_db_row (p : BasePost) : PostTable :=
  { platform := p.platform
    object_id := p.object_id
    author_handle := p.author_handle
    text := p.text
    created_at := p.created_at
    url := p.url
    parent_id := p.parent_id
    is_comment := if p.is_comment then 1 else 0
    raw_data := rawDataToCol p.raw_data
    metrics := p.metrics
    subreddit := p.subreddit
    title := p.title
    is_nsfw := if p.is_nsfw then 1 else 0
    handle := p.handle
    display_name := p.display_name
    avatar_url := p.avatar_url
    is_reply := if p.is_reply then 1 else 0
    is_repost := if p.is_repost then 1 else 0
    reply_to := p.reply_to
    repost_of := p.repost_of
    tags := if p.platform == "bluesky" then some p.tags else none
    instanceName := p.instanceName
    is_reblog := if p.is_reblog then 1 else 0
    is_sensitive := if p.is_sensitive then 1 else 0
    reblog_of := p.reblog_of }

/-- Observable state of the SQLite manager: the committed rows of the
posts table in rowid order, and whether engine.dispose() has been
called. Nothing in the source ever reads a disposed or closed flag;
the flag records that close() only drops the connection pool. -/
structure DBState where
  rows : List PostTable
  disposed : Bool
deriving DecidableEq

def dbEmpty : DBState := { rows := [], disposed := false }

inductive DBError where
  | integrity
  | storage
deriving DecidableEq

/-- The UNIQUE (platform, object_id) constraint of PostTable.__table_args__:
true when no two rows share the key pair. A commit that would violate it
raises IntegrityError and is rolled back. -/
def noDupKeys : List PostTable → Bool
  | [] => true
  | r :: rs => !(rs.any fun x => beqKey x.key r.key) && noDupKeys rs

/-- SQLiteManager.insert_post: add one row and commit; the UNIQUE
constraint is enforced by SQLite at commit, a violation rolls back. -/
def insert_post (st : DBState) (p : BasePost) : Except DBError DBState :=
  let rows' := st.rows ++ [_post_to_db_row p]
  if noDupKeys rows' then .ok { st with rows := rows' } else .error .integrity

/-- An entry of the existing_posts dict inside insert_posts: either a
reference to a committed PostTable row (attribute writes reach the
session and are flushed at commit) or an in-batch BasePost stored at
first insertion of a new key (attribute writes mutate the transient
model object only and never reach the staged row). -/
inductive Existing where
  | row (r : PostTable)
  | post (p : BasePost)

/-- Lookup in the existing_posts association list. -/
def lookupA (m : List (Key × Existing)) (k : Key) : Option Existing :=
  (m.find? fun e => beqKey e.1 k).map (·.2)

/-- Insert or replace in the existing_posts association list. -/
def insertA (m : List (Key × Existing)) (k : Key) (v : Existing) :
    List (Key × Existing) :=
  if (m.find? fun e => beqKey e.1 k).isSome then
    m.map fun e => if beqKey e.1 k then (k, v) else e
  else m ++ [(k, v)]

/-- SQLiteManager._get_existing_posts: for each key of the incoming
batch, query the first committed row with that key. -/
def _get_existing_posts (rows : List PostTable) (posts : List BasePost) :
    List (Key × Existing) :=
  posts.foldl
    (fun m p =>
      match rows.find? (fun r => beqKey r.key p.key) with
      | some r => insertA m p.key (.row r)
      | none => m)
    []

/-- Session-local state of the first loop of insert_posts. -/
structure ScanOut where
  existing : List (Key × Existing)
  newPosts : List PostTable
  updates : List (Key × BasePost)

/-- One iteration of the first loop of insert_posts: a known key with
changed text queues an update against the shared object; an unknown key
stages a new row immediately and records the BasePost itself in
existing_posts. Text comparisons use the object as stored in
existing_posts, which is unmutated during this loop (mutations happen
in the later update loop). -/
def scanStep (s : ScanOut) (p : BasePost) : ScanOut :=
  match lookupA s.existing p.key with
  | some e =>
      let etext := match e with | .row r => r.text | .post q => q.text
      if etext == p.text then s
      else { s with updates := s.updates ++ [(p.key, p)] }
  | none =>
      { s with
        newPosts := s.newPosts ++ [_post_to_db_row p]
        existing := insertA s.existing p.key (.post p) }

/-- The update block of insert_posts applied to a session row: overwrite
text, raw_data and metrics, and title when the post carries a title
attribute. No other column is written. -/
def applyUpdate (r : PostTable) (p : BasePost) : PostTable :=
  { r with
    text := p.text
    raw_data := rawDataToCol p.raw_data
    metrics := p.metrics
    title := if p.title.isSome then p.title else r.title }

/-- Effect of the queued updates on one committed row: every queued pair
whose target key aliases this row object is applied in queue order.
Pairs whose target is an in-batch BasePost alias no committed row and
therefore change nothing in the store. -/
def applyRowUpdates (updates : List (Key × BasePost)) (r : PostTable) : PostTable :=
  updates.foldl
    (fun acc kp => if beqKey kp.1 acc.key then applyUpdate acc kp.2 else acc) r

/-- SQLiteManager.insert_posts: dedup lookup, scan loop, update loop,
then a single commit guarded by the UNIQUE constraint. An empty batch
returns at once; when nothing was staged no commit happens. On a commit
failure the transaction is rolled back (the caller keeps the old state)
and the error is re-raised. -/
def insert_posts (st : DBState) (batch : List BasePost) : Except DBError DBState :=
  if batch.isEmpty then .ok st
  else
    let ex0 := _get_existing_posts st.rows batch
    let s := batch.foldl scanStep { existing := ex0, newPosts := [], updates := [] }
    if s.newPosts.isEmpty && s.updates.isEmpty then .ok st
    else
      let rows' := st.rows.map (applyRowUpdates s.updates) ++ s.newPosts
      if noDupKeys rows' then .ok { st with rows := rows' }
      else .error .integrity

/-- Outcome and observable store of one insert_posts call. -/
def finishInsert (st : DBState) (batch : List BasePost) :
    Except DBError Unit × DBState :=
  match insert_posts st batch with
  | .ok st' => (.ok (), st')
  | .error e => (.error e, st)

/-- insert_posts with an injected unrecoverable failure. Steps 0 up to
batch.length - 1 are the per-post processing inside the try block (the
session only stages changes there, the store is untouched); step
batch.length is the commit. An exception at any of these steps hits the
except branch: session.rollback() discards the staged changes and the
error is re-raised, so the observable store is the pre-call store. A
failure index beyond the steps means no injected failure. -/
def insertPostsRun (st : DBState) (batch : List BasePost) (failAt : Option Nat) :
    Except DBError Unit × DBState :=
  if batch.isEmpty then (.ok (), st)
  else
    match failAt with
    | some k =>
        if k ≤ batch.length then (.error .storage, st)
        else finishInsert st batch
    | none => finishInsert st batch

/-- SQLiteManager.close: engine.dispose() drops the pooled connections;
the engine object is kept and no closed flag is set anywhere, so later
operations transparently open fresh connections. -/
def close (st : DBState) : DBState := { st with disposed := true }

/-- SQLiteManager.get_post_count: count rows, with the platform filter
applied only when the argument is truthy. -/
def get_post_count (st : DBState) (platform : Option String) : Nat :=
  (if pyTruthyStr platform then
      st.rows.filter fun r => r.platform == platform.getD ""
    else st.rows).length

/-- Row selection of SQLiteManager.get_posts: optional platform filter,
then offset, then limit, each applied only when truthy (None and 0 are
skipped). -/
def selectRows (st : DBState) (platform : Option String)
    (limit offset : Option Nat) : List PostTable :=
  let q := st.rows
  let q := if pyTruthyStr platform then
      q.filter fun r => r.platform == platform.getD ""
    else q
  let q := if pyTruthyNat offset then q.drop (offset.getD 0) else q
  let q := if pyTruthyNat limit then q.take (limit.getD 0) else q
  q

/-- Column attributes a PostTable instance actually has: the id primary
key plus every Column declaration of class PostTable, in declaration
order. -/
def postTableColumnNames : List String :=
  ["id", "platform", "object_id", "author_handle", "text", "created_at",
   "url", "parent_id", "is_comment", "raw_data", "metrics",
   "subreddit", "title", "is_nsfw",
   "handle", "display_name", "avatar_url", "is_reply", "is_repost",
   "reply_to", "repost_of", "tags",
   "instance", "is_reblog", "is_sensitive", "reblog_of"]

/-- Attributes read by PostTable.to_dict, in evaluation order of its
dict literal. -/
def toDictAccessNames : List String :=
  ["id", "platform", "object_id", "author_handle", "text", "created_at",
   "tags", "metrics", "url", "parent_id", "is_comment", "raw_data",
   "subreddit", "title", "flair", "is_self", "is_nsfw", "is_locked",
   "is_archived", "is_stickied", "link_url", "domain",
   "handle", "display_name", "avatar_url", "is_reply", "is_repost",
   "is_quote", "reply_to", "repost_of", "quote_of", "images", "links",
   "instance", "is_reblog", "is_sensitive", "is_boosted", "reblog_of",
   "language", "spoiler_text"]

/-- Core fields of the record PostTable.to_dict would build. The record
is truncated to the core projection named by the spec; to_dict never
reaches its return because of the missing-attribute accesses. -/
structure PostRecord where
  platform : String
  object_id : String
  author_handle : String
  text : String
  created_at : Nat
  tags : List String
  metrics : Metrics
deriving DecidableEq

/-- PostTable.to_dict: evaluating the dict literal reads the attributes
in source order; the first name that is not a column of PostTable
raises AttributeError with that name. -/
def PostTable.to_dict (r : PostTable) : Except String PostRecord :=
  match toDictAccessNames.find? (fun n => !(postTableColumnNames.contains n)) with
  | some missing => .error missing
  | none =>
      .ok { platform := r.platform, object_id := r.object_id,
            author_handle := r.author_handle, text := r.text,
            created_at := r.created_at, tags := r.tags.getD [],
            metrics := r.metrics }

/-- SQLiteManager.get_posts: select rows then build one dict per row;
the first to_dict failure propagates as a raised AttributeError. -/
def get_posts (st : DBState) (platform : Option String)
    (limit offset : Option Nat) : Except String (List PostRecord) :=
  (selectRows st platform limit offset).mapM PostTable.to_dict

/-- One operation against the storage sink, for stating the reachable
states of a write sequence. -/
inductive DBOp where
  | single (p : BasePost)
  | batch (ps : List BasePost)

/-- Apply one operation; a raised error leaves the store as it was
(rollback semantics of both insert paths). -/
def applyOp (st : DBState) (op : DBOp) : DBState :=
  match op with
  | .single p =>
      match insert_post st p with
      | .ok st' => st'
      | .error _ => st
  | .batch ps =>
      match insert_posts st ps with
      | .ok st' => st'
      | .error _ => st

/-- Run a sequence of insert operations from a starting state. -/
def runOps (st : DBState) (ops : List DBOp) : DBState := ops.foldl applyOp st

/-- One element of the upstream submission stream of a subreddit or
search call, as the collector sees it: a successfully converted post, a
malformed item whose conversion raises (caught and skipped), or the
point at which the client iterator itself raises. -/
inductive StreamEv where
  | ok (p : BasePost)
  | bad
  | err

/-- RedditCollector._collect_from_subreddit: per-item conversion errors
are caught and skipped; a client error while iterating raises out of
the function, discarding the local posts list accumulated so far. -/
def _collect_from_subreddit : List StreamEv → Except Unit (List BasePost)
  | [] => .ok []
  | .ok p :: rest =>
      match _collect_from_subreddit rest with
      | .ok ps => .ok (p :: ps)
      | .error e => .error e
  | .bad :: rest => _collect_from_subreddit rest
  | .err :: _ => .error ()

/-- RedditCollector._search_by_keyword: same loop, but the try block
wraps the whole iteration and the function returns the posts collected
so far when the client raises, so partial results survive. -/
def _search_by_keyword : List StreamEv → List BasePost
  | [] => []
  | .ok p :: rest => p :: _search_by_keyword rest
  | .bad :: rest => _search_by_keyword rest
  | .err :: _ => []

/-- Reddit collector state: the enabled flag set by BaseCollector from
config, and the configured subreddit list used when the subreddits
argument is absent. -/
structure RedditCollectorM where
  enabled : Bool
  subreddits : List String

/-- The platform client behavior during one collect call: the submission
stream each subreddit feed yields, and the stream each keyword search
yields. -/
structure RedditClient where
  subFeed : String → List StreamEv
  searchFeed : String → List StreamEv

/-- RedditCollector.collect_continuous with the subreddits argument
absent (configured default) and the given keywords. A disabled
collector returns an empty batch at once. On the subreddit path each
subreddit is wrapped in its own try/except: a raising feed is logged
and skipped. On the keyword path _search_by_keyword never raises. The
method never assigns self.enabled, so the collector comes back
unchanged. -/
def collect_continuous (c : RedditCollectorM) (cl : RedditClient)
    (keywords : List String) : List BasePost × RedditCollectorM :=
  if !c.enabled then ([], c)
  else
    let posts :=
      if keywords.isEmpty then
        c.subreddits.foldl
          (fun acc s =>
            match _collect_from_subreddit (cl.subFeed s) with
            | .ok ps => acc ++ ps
            | .error _ => acc)
          []
      else
        keywords.foldl (fun acc kw => acc ++ _search_by_keyword (cl.searchFeed kw)) []
    (posts, c)

/-- Reddit collector configuration as read by RedditCollector.__init__
and _setup_reddit_client. -/
structure RedditConfig where
  enabled : Bool
  client_id : Option String
  client_secret : Option String
  user_agent : String
  subreddits : List String

/-- The ValueError message _setup_reddit_client raises when credentials
are missing. -/
def credsMissingMsg : String :=
  "Reddit API credentials not found. Set REDDIT_CLIENT_ID and REDDIT_CLIENT_SECRET environment variables."

/-- RedditCollector.__init__: BaseCollector.__init__ sets enabled from
config, then _setup_reddit_client resolves each credential from config
falling back to the environment and raises ValueError when either is
missing; the exception propagates out of the constructor. -/
def redditCollectorInit (cfg : RedditConfig) (envId envSecret : Option String) :
    Except String RedditCollectorM :=
  let cid := pyOrStr cfg.client_id envId
  let csec := pyOrStr cfg.client_secret envSecret
  if !(pyTruthyStr cid) || !(pyTruthyStr csec) then .error credsMissingMsg
  else .ok { enabled := cfg.enabled, subreddits := cfg.subreddits }

/-- Result of the reddit part of SocFlowApp._setup_collectors: whether a
reddit entry exists in self.collectors, the collector object when it
does, and the settings.collectors.reddit.enabled flag afterwards. -/
structure AppRedditSetup where
  redditRegistered : Bool
  redditCollector : Option RedditCollectorM
  redditSettingEnabled : Bool

/-- SocFlowApp._setup_collectors, reddit branch: skipped when the
setting is off; otherwise the constructor is attempted, a raised
exception is caught, the collector stays unregistered and the setting
is flipped to disabled. No exception escapes the setup. -/
def _setup_collectors (settingEnabled : Bool) (cfg : RedditConfig)
    (envId envSecret : Option String) : AppRedditSetup :=
  if !settingEnabled then
    { redditRegistered := false, redditCollector := none,
      redditSettingEnabled := settingEnabled }
  else
    match redditCollectorInit cfg envId envSecret with
    | .ok c =>
        { redditRegistered := true, redditCollector := some c,
          redditSettingEnabled := true }
    | .error _ =>
        { redditRegistered := false, redditCollector := none,
          redditSettingEnabled := false }

/-- Spec-side reading for the collect claims: the posts of a stream that
were successfully converted before the first client failure. -/
def gatheredBeforeFailure : List StreamEv → List BasePost
  | [] => []
  | .ok p :: rest => p :: gatheredBeforeFailure rest
  | .bad :: rest => gatheredBeforeFailure rest
  | .err :: _ => []

/-- Whether a stream contains a client failure point. -/
def hasErr : List StreamEv → Bool
  | [] => false
  | .err :: _ => true
  | _ :: rest => hasErr rest

/-- All successfully converted posts of a stream, ignoring failure
points. -/
def okItems : List StreamEv → List BasePost
  | [] => []
  | .ok p :: rest => p :: okItems rest
  | .bad :: rest => okItems rest
  | .err :: rest => okItems rest

/-- Spec-side description of what one subreddit contributes to a
collect_continuous batch: everything when its stream has no client
failure, nothing otherwise. -/
def completedSubPosts (evs : List StreamEv) : List BasePost :=
  if hasErr evs then [] else okItems evs

/-- Concatenation of a list of lists. -/
def concatAll : List (List BasePost) → List BasePost
  | [] => []
  | l :: ls => l ++ concatAll ls

/-- Example posts sharing the dedup key (reddit, r1) with different
text, metrics, raw payload and attribute-bag fields. -/
def postX : BasePost :=
  { platform := "reddit", object_id := "r1", author_handle := "alice",
    text := "draft", created_at := 10,
    subreddit := some "news", title := some "headline" }

def postY : BasePost :=
  { platform := "reddit", object_id := "r1", author_handle := "alice",
    text := "edited", created_at := 20,
    subreddit := some "science", title := some "headline2",
    metrics := { likes := 5 }, raw_data := some "payloadY" }

/-- Store holding exactly the row of postX. -/
def stOneRow : DBState := { rows := [_post_to_db_row postX], disposed := false }

theorem beqKey_eq_true {a b : Key} : beqKey a b = true ↔ a = b := by
  simp [beqKey, Bool.and_eq_true, Prod.ext_iff]

theorem beqKey_eq_false {a b : Key} : beqKey a b = false ↔ a ≠ b := by
  rw [← Bool.not_eq_true, not_iff_not]
  exact beqKey_eq_true

theorem key_post_to_db_row (p : BasePost) : (_post_to_db_row p).key = p.key := rfl

theorem text_post_to_db_row (p : BasePost) : (_post_to_db_row p).text = p.text := rfl

theorem beqKey_refl (k : Key) : beqKey k k = true := by
  simp [beqKey]

theorem key_applyUpdate (r : PostTable) (p : BasePost) :
    (applyUpdate r p).key = r.key := rfl

theorem not_beqKey_iff {a b : Key} : ¬(beqKey a b = true) ↔ a ≠ b := by
  rw [beqKey_eq_true]

theorem noDupKeys_iff (l : List PostTable) :
    noDupKeys l = true ↔ l.Pairwise (fun a b => a.key ≠ b.key) := by
  induction l with
  | nil => simp [noDupKeys]
  | cons r rs ih =>
    simp only [noDupKeys, Bool.and_eq_true, Bool.not_eq_true', List.any_eq_false,
      List.pairwise_cons, ih, not_beqKey_iff]
    constructor
    · rintro ⟨h1, h2⟩
      exact ⟨fun b hb => Ne.symm (h1 b hb), h2⟩
    · rintro ⟨h1, h2⟩
      exact ⟨fun b hb => Ne.symm (h1 b hb), h2⟩

theorem noDupKeys_append_fresh {l : List PostTable} {r : PostTable}
    (hinv : noDupKeys l = true) (hf : ∀ x ∈ l, x.key ≠ r.key) :
    noDupKeys (l ++ [r]) = true := by
  rw [noDupKeys_iff] at hinv ⊢
  rw [List.pairwise_append]
  exact ⟨hinv, List.pairwise_singleton _ _, fun a ha b hb => by
    rw [List.mem_singleton] at hb
    subst hb
    exact hf a ha⟩

theorem fresh_of_find?_none {rows : List PostTable} {k : Key}
    (h : rows.find? (fun r => beqKey r.key k) = none) :
    ∀ r ∈ rows, r.key ≠ k := by
  rw [List.find?_eq_none] at h
  intro r hr
  have := h r hr
  rw [Bool.not_eq_true, beqKey_eq_false] at this
  exact this

theorem map_single_update_fresh {rows : List PostTable} {k : Key} {p : BasePost}
    (h : ∀ r ∈ rows, r.key ≠ k) :
    rows.map (applyRowUpdates [(k, p)]) = rows := by
  induction rows with
  | nil => rfl
  | cons r rs ih =>
    have hk : beqKey k r.key = false := by
      rw [beqKey_eq_false]
      exact fun e => h r (List.mem_cons_self r rs) e.symm
    simp only [List.map_cons, applyRowUpdates, List.foldl_cons, List.foldl_nil, hk,
      Bool.false_eq_true, if_false]
    rw [ih fun x hx => h x (List.mem_cons_of_mem r hx)]

/-- Inserting a single-post batch whose key is not yet stored appends
exactly one new row (helper shared by several claims). -/
theorem insert_single_new (st : DBState) (p : BasePost)
    (hfresh : st.rows.find? (fun r => beqKey r.key p.key) = none)
    (hinv : noDupKeys st.rows = true) :
    insert_posts st [p] = .ok { st with rows := st.rows ++ [_post_to_db_row p] } := by
  have hex : _get_existing_posts st.rows [p] = [] := by
    simp [_get_existing_posts, hfresh]
  have hguard : noDupKeys (st.rows ++ [_post_to_db_row p]) = true :=
    noDupKeys_append_fresh hinv (by
      rw [key_post_to_db_row]
      exact fresh_of_find?_none hfresh)
  have hmap : List.map (applyRowUpdates []) st.rows = st.rows := by
    have h1 : applyRowUpdates ([] : List (Key × BasePost)) = id := funext fun r => rfl
    rw [h1, List.map_id]
  simp [insert_posts, hex, scanStep, lookupA, insertA, hmap, hguard]

/-- C1. The claim says last-write-within-batch wins; on the code the
first occurrence wins: at the concrete batch of two posts sharing the
key (reddit, r1) with texts draft then edited and different metrics,
the single persisted row carries the text and metrics of the FIRST
occurrence, not the later one. -/
theorem insert_posts_within_batch_last_write_cex :
    postX.key = postY.key ∧ postX.text ≠ postY.text ∧
    (insert_posts dbEmpty [postX, postY]).map (fun s => s.rows.map PostTable.text)
      = .ok ["draft"] ∧
    postY.text = "edited" ∧
    (insert_posts dbEmpty [postX, postY]).map (fun s => s.rows.map fun r => r.metrics.likes)
      = .ok [0] ∧
    postY.metrics.likes = 5 := by
  refine ⟨rfl, by decide, rfl, rfl, rfl, rfl⟩

/-- C1 (amended). For a batch holding two posts with the same
(platform, object_id) and different text, with no stored row for that
key, insert_posts persists exactly one new row built from the FIRST
occurrence: the within-batch edit is applied to the transient model
object recorded in existing_posts, not to the staged row, so the text,
raw payload and metrics of the later occurrence are lost. -/
theorem insert_posts_within_batch_first_write_wins
    (st : DBState) (p1 p2 : BasePost)
    (hkey : p1.key = p2.key) (htext : p1.text ≠ p2.text)
    (hfresh : st.rows.find? (fun r => beqKey r.key p1.key) = none)
    (hinv : noDupKeys st.rows = true) :
    insert_posts st [p1, p2] = .ok { st with rows := st.rows ++ [_post_to_db_row p1] } := by
  have hb : beqKey p1.key p2.key = true := beqKey_eq_true.mpr hkey
  have hfresh2 : st.rows.find? (fun r => beqKey r.key p2.key) = none := by
    rw [← hkey]
    exact hfresh
  have hex : _get_existing_posts st.rows [p1, p2] = [] := by
    simp [_get_existing_posts, hfresh, hfresh2]
  have hmap : st.rows.map (applyRowUpdates [(p2.key, p2)]) = st.rows :=
    map_single_update_fresh (fresh_of_find?_none hfresh2)
  have hguard : noDupKeys (st.rows ++ [_post_to_db_row p1]) = true :=
    noDupKeys_append_fresh hinv (by
      rw [key_post_to_db_row]
      exact fresh_of_find?_none hfresh)
  simp [insert_posts, hex, scanStep, lookupA, insertA, hb, beqKey_refl,
    text_post_to_db_row, htext, hmap, hguard]

/-- C1 witness: the amended theorem applied at the concrete batch. -/
theorem insert_posts_within_batch_first_write_wins_witness :
    insert_posts dbEmpty [postX, postY]
      = .ok { dbEmpty with rows := dbEmpty.rows ++ [_post_to_db_row postX] } :=
  insert_posts_within_batch_first_write_wins dbEmpty postX postY rfl
    (by decide) rfl rfl

/-- C2. The update block only rewrites text, raw_data, metrics and
title: at the concrete pair whose subreddit changed from news to
science between the two inserts, the stored row keeps the first
subreddit, refuting the claim that the attribute-bag fields reflect the
second post. -/
theorem insert_posts_edit_attribute_bag_cex :
    ((insert_posts dbEmpty [postX]).bind fun s1 =>
        insert_posts s1 [postY]).map (fun s => s.rows.map PostTable.subreddit)
      = .ok [some "news"] ∧
    postY.subreddit = some "science" := by
  refine ⟨rfl, rfl⟩

/-- C2 (amended). For posts p1, p2 with the same (platform, object_id)
and different text inserted in two separate insert_posts calls, the
stored row after both carries the text, raw payload, metrics, and the
title of p2 (title is the one attribute-bag field the update block
writes); every other column, among them the remaining attribute-bag
fields and the immutable created_at and object_id, keeps the value
stored from p1. -/
theorem insert_posts_edit_update_fields
    (st : DBState) (p1 p2 : BasePost)
    (hkey : p1.key = p2.key) (htext : p1.text ≠ p2.text)
    (hfresh : st.rows.find? (fun r => beqKey r.key p1.key) = none)
    (hinv : noDupKeys st.rows = true) :
    insert_posts st [p1] = .ok { st with rows := st.rows ++ [_post_to_db_row p1] } ∧
    insert_posts { st with rows := st.rows ++ [_post_to_db_row p1] } [p2] =
      .ok { st with rows := st.rows ++
        [{ _post_to_db_row p1 with
             text := p2.text
             raw_data := rawDataToCol p2.raw_data
             metrics := p2.metrics
             title := if p2.title.isSome then p2.title else p1.title }] } := by
  refine ⟨insert_single_new st p1 hfresh hinv, ?_⟩
  have hb : beqKey p1.key p2.key = true := beqKey_eq_true.mpr hkey
  have hb2 : beqKey p2.key p1.key = true := beqKey_eq_true.mpr hkey.symm
  have hfresh2 : st.rows.find? (fun r => beqKey r.key p2.key) = none := by
    rw [← hkey]
    exact hfresh
  have hex : _get_existing_posts (st.rows ++ [_post_to_db_row p1]) [p2]
      = [(p2.key, Existing.row (_post_to_db_row p1))] := by
    simp [_get_existing_posts, List.find?_append, hfresh2, key_post_to_db_row,
      hb, insertA]
  have hmap : st.rows.map (applyRowUpdates [(p2.key, p2)]) = st.rows :=
    map_single_update_fresh (fresh_of_find?_none hfresh2)
  have hguard : noDupKeys (st.rows ++ [applyUpdate (_post_to_db_row p1) p2]) = true :=
    noDupKeys_append_fresh hinv (by
      rw [key_applyUpdate, key_post_to_db_row]
      exact fresh_of_find?_none hfresh)
  have hau : applyUpdate (_post_to_db_row p1) p2 =
      { _post_to_db_row p1 with
          text := p2.text
          raw_data := rawDataToCol p2.raw_data
          metrics := p2.metrics
          title := if p2.title.isSome then p2.title else p1.title } := rfl
  rw [hau] at hguard
  simp [insert_posts, hex, scanStep, lookupA, insertA, hb, hb2, beqKey_refl,
    key_post_to_db_row, text_post_to_db_row, htext, hmap, applyRowUpdates,
    hau, hguard]

/-- C2 witness: the amended theorem applied at the concrete posts. -/
theorem insert_posts_edit_update_fields_witness :
    insert_posts dbEmpty [postX]
      = .ok { dbEmpty with rows := dbEmpty.rows ++ [_post_to_db_row postX] } ∧
    insert_posts { dbEmpty with rows := dbEmpty.rows ++ [_post_to_db_row postX] } [postY] =
      .ok { dbEmpty with rows := dbEmpty.rows ++
        [{ _post_to_db_row postX with
             text := postY.text
             raw_data := rawDataToCol postY.raw_data
             metrics := postY.metrics
             title := if postY.title.isSome then postY.title else postX.title }] } :=
  insert_posts_edit_update_fields dbEmpty postX postY rfl (by decide) rfl rfl

/-- C3. Re-inserting an already stored post with unchanged text is a
no-op: the first loop queues neither a new row nor an update, no commit
runs, the state is returned unchanged, and every get_post_count reading
is unchanged. -/
theorem insert_posts_unchanged_noop (st : DBState) (p : BasePost) (r : PostTable)
    (hfind : st.rows.find? (fun x => beqKey x.key p.key) = some r)
    (htext : r.text = p.text) :
    insert_posts st [p] = .ok st ∧
    ∀ fil : Option String,
      (insert_posts st [p]).map (fun s => get_post_count s fil)
        = .ok (get_post_count st fil) := by
  have hex : _get_existing_posts st.rows [p] = [(p.key, Existing.row r)] := by
    simp [_get_existing_posts, hfind, insertA]
  have hmain : insert_posts st [p] = .ok st := by
    simp [insert_posts, hex, scanStep, lookupA, insertA, beqKey_refl, htext]
  refine ⟨hmain, fun fil => by rw [hmain]; rfl⟩

/-- C3 witness: the theorem applied to the store already holding the
row of postX, re-inserting postX. -/
theorem insert_posts_unchanged_noop_witness :
    insert_posts stOneRow [postX] = .ok stOneRow ∧
    ∀ fil : Option String,
      (insert_posts stOneRow [postX]).map (fun s => get_post_count s fil)
        = .ok (get_post_count stOneRow fil) :=
  insert_posts_unchanged_noop stOneRow postX (_post_to_db_row postX) rfl rfl

/-- C4. insert_posts is atomic per batch: whatever step an
unrecoverable error is injected at (any per-post processing step or the
commit itself), either the call succeeds and the observable store is
the full result of the batch, or the call surfaces an error and the
observable store is exactly the pre-call store; no partially committed
batch is observable. -/
theorem insert_posts_batch_atomic (st : DBState) (batch : List BasePost)
    (failAt : Option Nat) :
    (∃ st', insertPostsRun st batch failAt = (Except.ok (), st')
        ∧ insert_posts st batch = Except.ok st')
    ∨ (∃ e, insertPostsRun st batch failAt = (Except.error e, st)) := by
  by_cases hb : batch.isEmpty
  · exact Or.inl ⟨st, by simp [insertPostsRun, hb], by simp [insert_posts, hb]⟩
  · have hfin : (∃ st', finishInsert st batch = (Except.ok (), st')
        ∧ insert_posts st batch = Except.ok st')
        ∨ (∃ e, finishInsert st batch = (Except.error e, st)) := by
      rcases hok : insert_posts st batch with e | st'
      · exact Or.inr ⟨e, by simp [finishInsert, hok]⟩
      · exact Or.inl ⟨st', by simp [finishInsert, hok], rfl⟩
    rcases failAt with _ | k
    · simpa [insertPostsRun, hb] using hfin
    · by_cases hk : k ≤ batch.length
      · exact Or.inr ⟨DBError.storage, by simp [insertPostsRun, hb, hk]⟩
      · simpa [insertPostsRun, hb, hk] using hfin

/-- C5. On any non-empty store get_posts raises instead of returning:
building the first record, PostTable.to_dict reads self.flair, which is
not a column of PostTable (nor are is_self, is_locked, is_archived,
is_stickied, link_url, domain, is_quote, quote_of, images, links,
is_boosted, language, spoiler_text), so the call raises AttributeError
for flair. Evaluated at a store holding one row: the store counts one
post and get_posts with no filter raises on the attribute flair. -/
theorem get_posts_nonempty_attribute_error :
    get_post_count stOneRow none = 1 ∧
    get_posts stOneRow none none none = .error "flair" := by
  refine ⟨rfl, rfl⟩

/-- C7. After close() the store still accepts every operation: close
only disposes the connection pool and sets no closed flag, so at the
concrete empty store a subsequent insert_posts succeeds and persists a
row, and get_post_count reads it back, instead of failing with a closed
error. -/
theorem close_not_closed_error_cex :
    (insert_posts (close dbEmpty) [postX]).map (fun s => s.rows.length) = .ok 1 ∧
    get_post_count (close stOneRow) none = 1 ∧
    get_posts (close dbEmpty) none none none = .ok [] := by
  refine ⟨rfl, rfl, rfl⟩

/-- C7 (amended). close() disposes the pooled connections and releases
no other resource: every subsequent operation transparently obtains a
fresh connection and behaves exactly as before the close; no operation
fails with a closed error. -/
theorem close_then_operations_still_succeed (st : DBState) (batch : List BasePost)
    (platform : Option String) (limit offset : Option Nat) :
    (insert_posts (close st) batch).map DBState.rows
      = (insert_posts st batch).map DBState.rows ∧
    get_post_count (close st) platform = get_post_count st platform ∧
    get_posts (close st) platform limit offset
      = get_posts st platform limit offset := by
  refine ⟨?_, rfl, rfl⟩
  cases st with
  | mk rows disposed =>
    simp only [insert_posts, close]
    split
    · rfl
    · split
      · rfl
      · split
        · rfl
        · rfl

/-- C8. Starting from the empty store, no sequence of insert_post and
insert_posts operations can reach a state with two rows sharing a
(platform, object_id) pair: insert_posts deduplicates and the UNIQUE
constraint rejects (with rollback) any commit that would violate it. -/
theorem insert_ops_unique_key_invariant (ops : List DBOp) :
    noDupKeys (runOps dbEmpty ops).rows = true := by
  have step : ∀ (st : DBState) (op : DBOp), noDupKeys st.rows = true →
      noDupKeys (applyOp st op).rows = true := by
    intro st op h
    cases op with
    | single p =>
        simp only [applyOp, insert_post]
        split
        · next heq =>
            split at heq
            · next hg => cases heq; exact hg
            · cases heq
        · exact h
    | batch ps =>
        simp only [applyOp, insert_posts]
        split
        · next heq =>
            split at heq
            · cases heq; exact h
            · split at heq
              · cases heq; exact h
              · split at heq
                · next hg => cases heq; exact hg
                · cases heq
        · exact h
  have aux : ∀ (ops : List DBOp) (st : DBState), noDupKeys st.rows = true →
      noDupKeys (runOps st ops).rows = true := by
    intro ops
    induction ops with
    | nil => intro st h; exact h
    | cons op rest ih =>
        intro st h
        exact ih (applyOp st op) (step st op h)
  exact aux ops dbEmpty rfl

/-- C10. get_posts treats a limit of 0 and an offset of 0 exactly like
an absent argument, because the source guards each with a Python
truthiness test: limit equal to 0 returns all selected rows rather than
none, and offset equal to 0 skips no rows. -/
theorem get_posts_zero_limit_offset_ignored (st : DBState)
    (platform : Option String) (limit offset : Option Nat) :
    get_posts st platform (some 0) offset = get_posts st platform none offset ∧
    get_posts st platform limit (some 0) = get_posts st platform limit none := by
  refine ⟨rfl, rfl⟩

theorem collectFromSubreddit_no_err {evs : List StreamEv}
    (h : hasErr evs = false) :
    _collect_from_subreddit evs = .ok (okItems evs) := by
  induction evs with
  | nil => rfl
  | cons e rest ih =>
    cases e with
    | ok p =>
        have hr : hasErr rest = false := by simpa [hasErr] using h
        simp [_collect_from_subreddit, ih hr, okItems]
    | bad =>
        have hr : hasErr rest = false := by simpa [hasErr] using h
        simp [_collect_from_subreddit, ih hr, okItems]
    | err => simp [hasErr] at h

theorem collectFromSubreddit_err {evs : List StreamEv}
    (h : hasErr evs = true) :
    _collect_from_subreddit evs = .error () := by
  induction evs with
  | nil => simp [hasErr] at h
  | cons e rest ih =>
    cases e with
    | ok p =>
        have hr : hasErr rest = true := by simpa [hasErr] using h
        simp [_collect_from_subreddit, ih hr]
    | bad =>
        have hr : hasErr rest = true := by simpa [hasErr] using h
        simp [_collect_from_subreddit, ih hr]
    | err => rfl

theorem fold_subreddits (cl : RedditClient) (subs : List String)
    (acc : List BasePost) :
    subs.foldl
      (fun acc s =>
        match _collect_from_subreddit (cl.subFeed s) with
        | .ok ps => acc ++ ps
        | .error _ => acc)
      acc
    = acc ++ concatAll (subs.map fun s => completedSubPosts (cl.subFeed s)) := by
  induction subs generalizing acc with
  | nil => simp [concatAll]
  | cons s rest ih =>
    by_cases he : hasErr (cl.subFeed s) = true
    · simp [collectFromSubreddit_err he, concatAll, completedSubPosts, he, ih]
    · have he' : hasErr (cl.subFeed s) = false := by
        simpa using he
      simp [collectFromSubreddit_no_err he', concatAll, completedSubPosts, he',
        ih, List.append_assoc]

theorem search_eq_gathered (evs : List StreamEv) :
    _search_by_keyword evs = gatheredBeforeFailure evs := by
  induction evs with
  | nil => rfl
  | cons e rest ih =>
    cases e with
    | ok p => simp [_search_by_keyword, gatheredBeforeFailure, ih]
    | bad => simp [_search_by_keyword, gatheredBeforeFailure, ih]
    | err => rfl

theorem fold_keywords (cl : RedditClient) (kws : List String)
    (acc : List BasePost) :
    kws.foldl (fun acc kw => acc ++ _search_by_keyword (cl.searchFeed kw)) acc
      = acc ++ concatAll (kws.map fun kw => gatheredBeforeFailure (cl.searchFeed kw)) := by
  induction kws generalizing acc with
  | nil => simp [concatAll]
  | cons kw rest ih =>
    rw [List.foldl_cons, ih, List.map_cons]
    show acc ++ _search_by_keyword (cl.searchFeed kw)
        ++ concatAll (rest.map fun kw => gatheredBeforeFailure (cl.searchFeed kw))
      = acc ++ (gatheredBeforeFailure (cl.searchFeed kw)
        ++ concatAll (rest.map fun kw => gatheredBeforeFailure (cl.searchFeed kw)))
    rw [search_eq_gathered, List.append_assoc]

/-- Enabled example collector configured with one subreddit. -/
def collectorEx : RedditCollectorM := { enabled := true, subreddits := ["all"] }

/-- Example client whose subreddit feed converts one post successfully
and then raises while iterating. -/
def clientEx : RedditClient :=
  { subFeed := fun _ => [.ok postX, .err], searchFeed := fun _ => [] }

/-- C6. A client failure in the middle of a subreddit iteration
discards the posts already converted inside that subreddit call: at the
concrete stream that yields one converted post and then raises,
collect_continuous returns no posts at all, while one post had been
successfully gathered before the failure; the result is therefore not
exactly the posts gathered before the failure. -/
theorem collect_continuous_drops_partial_cex :
    (collect_continuous collectorEx clientEx []).1 = [] ∧
    gatheredBeforeFailure (clientEx.subFeed "all") = [postX] ∧
    (collect_continuous collectorEx clientEx []).1
      ≠ gatheredBeforeFailure (clientEx.subFeed "all") := by
  refine ⟨rfl, rfl, by decide⟩

/-- C6 (amended). For an enabled collector, every collect_continuous
call returns without propagating a client failure and leaves the
enabled flag true. On the subreddit-feed path (no keywords) the result
is the concatenation, over the configured subreddits in order, of the
converted posts of every subreddit whose stream completed without a
client failure; a subreddit whose stream fails mid-iteration
contributes nothing, including its posts converted before the failure.
On the keyword-search path the result is, per keyword in order, exactly
the posts successfully gathered before the failure: there the partial
posts are kept. -/
theorem collect_continuous_partial_failure (c : RedditCollectorM)
    (cl : RedditClient) (keywords : List String) (hen : c.enabled = true) :
    (collect_continuous c cl keywords).2.enabled = true ∧
    (collect_continuous c cl keywords).1
      = if keywords.isEmpty then
          concatAll (c.subreddits.map fun s => completedSubPosts (cl.subFeed s))
        else
          concatAll (keywords.map fun kw => gatheredBeforeFailure (cl.searchFeed kw)) := by
  refine ⟨by simp [collect_continuous, hen], ?_⟩
  by_cases hkw : keywords.isEmpty = true
  · simp only [collect_continuous, hen, Bool.not_true, Bool.false_eq_true,
      if_false, hkw, if_true]
    simpa using fold_subreddits cl c.subreddits []
  · rw [Bool.not_eq_true] at hkw
    simp only [collect_continuous, hen, Bool.not_true, Bool.false_eq_true,
      if_false, hkw]
    simpa using fold_keywords cl keywords []

/-- Example client for the keyword path: the search stream converts one
post, raises, and would have yielded another. -/
def clientEx2 : RedditClient :=
  { subFeed := fun _ => [], searchFeed := fun _ => [.ok postX, .err, .ok postY] }

/-- C6 witness: the amended theorem applied at the example collector
and the keyword-path client with one keyword. -/
theorem collect_continuous_partial_failure_witness :
    (collect_continuous collectorEx clientEx2 ["k"]).2.enabled = true ∧
    (collect_continuous collectorEx clientEx2 ["k"]).1
      = if (["k"] : List String).isEmpty then
          concatAll (collectorEx.subreddits.map fun s =>
            completedSubPosts (clientEx2.subFeed s))
        else
          concatAll ((["k"] : List String).map fun kw =>
            gatheredBeforeFailure (clientEx2.searchFeed kw)) :=
  collect_continuous_partial_failure collectorEx clientEx2 ["k"] rfl

/-- Reddit configuration with no credentials in config (and none in the
environment at the call sites below). -/
def cfgNoCreds : RedditConfig :=
  { enabled := true, client_id := none, client_secret := none,
    user_agent := "SocFlow/1.0", subreddits := ["all"] }

/-- C9. The collector does NOT mark itself disabled on a credential
error: RedditCollector.__init__ raises ValueError out of the
constructor (the construction failure IS propagated to its caller), so
no collector instance exists whose is_enabled() could return false; the
recovery happens one level up in SocFlowApp._setup_collectors. -/
theorem collector_init_propagates_error_cex :
    redditCollectorInit cfgNoCreds none none = .error credsMissingMsg ∧
    (_setup_collectors true cfgNoCreds none none).redditCollector = none := by
  refine ⟨rfl, rfl⟩

/-- C9 (amended). When the credentials are missing the collector
constructor raises ValueError to its caller; the owning application
setup catches the exception, registers no collector for the platform,
and flips the platform settings flag to disabled, so the construction
failure never reaches the collection loop. -/
theorem collector_credential_failure_disables_platform
    (cfg : RedditConfig) (envId envSecret : Option String)
    (hmiss : pyTruthyStr (pyOrStr cfg.client_id envId) = false ∨
             pyTruthyStr (pyOrStr cfg.client_secret envSecret) = false) :
    redditCollectorInit cfg envId envSecret = .error credsMissingMsg ∧
    (_setup_collectors true cfg envId envSecret).redditRegistered = false ∧
    (_setup_collectors true cfg envId envSecret).redditCollector = none ∧
    (_setup_collectors true cfg envId envSecret).redditSettingEnabled = false := by
  have hinit : redditCollectorInit cfg envId envSecret = .error credsMissingMsg := by
    rcases hmiss with h | h
    · simp [redditCollectorInit, h]
    · simp [redditCollectorInit, h]
  refine ⟨hinit, ?_, ?_, ?_⟩ <;> simp [_setup_collectors, hinit]

/-- C9 witness: the amended theorem applied at the credential-free
configuration and empty environment. -/
theorem collector_credential_failure_disables_platform_witness :
    redditCollectorInit cfgNoCreds none none = .error credsMissingMsg ∧
    (_setup_collectors true cfgNoCreds none none).redditRegistered = false ∧
    (_setup_collectors true cfgNoCreds none none).redditCollector = none ∧
    (_setup_collectors true cfgNoCreds none none).redditSettingEnabled = false :=
  collector_credential_failure_disables_platform cfgNoCreds none none (Or.inl rfl)

end SocFlow

